import Mathlib

/-!
Shallow embedding of the Odoo MCP gateway (src/odoo_mcp_server.py) and proofs
about its helper functions and tool-level operations.

The remote Odoo store is modelled as a record of functions (`Remote`), one per
method of the odoolib model proxy that the gateway invokes.  Python dicts are
modelled as association lists of key/value pairs in insertion order; JSON-style
dynamic values are modelled by the inductive type `Json`.  Exceptions raised by
the gateway are modelled with `Except`; whether and which remote methods were
invoked during a tool call is recorded in an explicit call trace.
-/

namespace OdooMCP

/-- Dynamic (JSON-style) values flowing through the gateway. -/
inductive Json where
  | null
  | bool (b : Bool)
  | int (n : Int)
  | str (s : String)
  | arr (xs : List Json)
  | obj (kvs : List (String × Json))

/-- A record as returned by the remote store: a Python dict in insertion order. -/
abbrev Record := List (String × Json)

/-- A domain filter term list; the gateway passes it through uninspected. -/
abbrev Domain := List Json

/-- Attribute mapping of one field descriptor, as returned by fields_get. -/
abbrev FieldInfo := List (String × Json)

/-- Result of fields_get: field name mapped to its attribute dict. -/
abbrev FieldsGetResult := List (String × FieldInfo)

/-- Python dict read d.get(k): the value at the first matching key, if any. -/
def dictLookup (d : List (String × Json)) (k : String) : Option Json :=
  match d.find? (fun kv => kv.1 = k) with
  | some kv => some kv.2
  | none => none

/-- Python membership test, k in d, for a dict. -/
def dictContains (d : List (String × Json)) (k : String) : Bool :=
  (dictLookup d k).isSome

/-- Python dict assignment d[k] = v: replaces the value at an existing key in
place, otherwise appends the new pair at the end (insertion order). -/
def dictSet (d : List (String × Json)) (k : String) (v : Json) : List (String × Json) :=
  if d.any (fun kv => kv.1 = k) then
    d.map (fun kv => if kv.1 = k then (k, v) else kv)
  else d ++ [(k, v)]

/-- The single-quote character, used in the guard error message text. -/
def sq : String := String.singleton (Char.ofNat 39)

/-- Python repr() restricted to the JSON-value fragment (strings are rendered
without escaping, which is exact for the quote-free strings arising here). -/
def pyRepr : Json → String
  | .null => "None"
  | .bool true => "True"
  | .bool false => "False"
  | .int i => toString i
  | .str s => sq ++ s ++ sq
  | .arr xs => "[" ++ String.intercalate ", " (xs.attach.map (fun x => pyRepr x.1)) ++ "]"
  | .obj kvs =>
      "\x7b" ++
        String.intercalate ", "
          (kvs.attach.map (fun kv => sq ++ kv.1.1 ++ sq ++ ": " ++ pyRepr kv.1.2)) ++
      "\x7d"
decreasing_by
· have h := List.sizeOf_lt_of_mem x.2
  simp only [Json.arr.sizeOf_spec]
  omega
· obtain ⟨⟨a, b⟩, hm⟩ := kv
  have h := List.sizeOf_lt_of_mem hm
  simp only [Json.obj.sizeOf_spec, Prod.mk.sizeOf_spec] at h ⊢
  omega

/-- Python str() on a JSON-style value: a string renders as itself, anything
else via repr. -/
def pyStr (v : Json) : String :=
  match v with
  | .str s => s
  | v => pyRepr v

/-- A Python value reaching the json.dumps default serializer.  The source
checks isinstance datetime before isinstance date (a datetime is also a date);
the two constructors here are disjoint, so the order of the checks is
reflected by the constructor chosen. -/
inductive PyObj where
  | datetime (year month day hour minute second : Nat)
  | date (year month day : Nat)
  | other (s : String)

/-- Zero-padded two-digit decimal field, as printed by strftime. -/
def pad2 (n : Nat) : String :=
  if n < 10 then "0" ++ toString n else toString n

/-- Zero-padded four-digit year field, as printed by strftime %Y. -/
def pad4 (n : Nat) : String :=
  if n < 10 then "000" ++ toString n
  else if n < 100 then "00" ++ toString n
  else if n < 1000 then "0" ++ toString n
  else toString n

/-- format_datetime from the source: datetime renders with the strftime
pattern for date plus time, date with the date-only pattern, anything else
falls back to str(). -/
def format_datetime : PyObj → String
  | .datetime y mo d h mi s =>
      pad4 y ++ "-" ++ pad2 mo ++ "-" ++ pad2 d ++ " " ++
        pad2 h ++ ":" ++ pad2 mi ++ ":" ++ pad2 s
  | .date y mo d => pad4 y ++ "-" ++ pad2 mo ++ "-" ++ pad2 d
  | .other s => s

/-- WRITE_METHODS from the source: operations blocked in READONLY_MODE. -/
def WRITE_METHODS : List String := ["create", "write", "unlink", "copy"]

/-- DANGEROUS_FIELD_TYPES from the source: field types excluded by default. -/
def DANGEROUS_FIELD_TYPES : List String := ["binary", "image", "html"]

/-- The error raised by the write-policy guard (fastmcp ToolError). -/
structure ToolError where
  msg : String
deriving DecidableEq

/-- check_readonly_mode from the source: raises a ToolError carrying the
operation name and the fixed remediation text iff READONLY_MODE is set and the
operation is one of the write methods. -/
def check_readonly_mode (READONLY_MODE : Bool) (operation : String) : Except ToolError Unit :=
  if READONLY_MODE = true ∧ operation ∈ WRITE_METHODS then
    .error ⟨"Operation " ++ sq ++ operation ++ sq ++
      " is not allowed in READONLY_MODE. Set READONLY_MODE=false to enable write operations."⟩
  else .ok ()

/-- build_record_url from the source. -/
def build_record_url (ODOO_URL : String) (model : String) (record_id : Int) : String :=
  ODOO_URL ++ "/odoo/" ++ model ++ "/" ++ toString record_id

/-- The remote Odoo store, seen through the odoolib model-proxy surface: one
function per remote method the gateway invokes.  An Option argument models a
keyword argument that the client wrapper either passes or omits. -/
structure Remote where
  search_read : String → Domain → Option (List String) → Int → Int → Option String → List Record
  search_count : String → Domain → Int
  read : String → List Int → Option (List String) → List Record
  fields_get : String → Option (List String) → Option (List String) → FieldsGetResult

/-- OdooJsonRpcClient.read: the fields keyword is passed only when the list is
truthy, that is, present and nonempty. -/
def client_read (remote : Remote) (model : String) (ids : List Int)
    (fields : Option (List String)) : List Record :=
  match fields with
  | some fs => if fs.isEmpty then remote.read model ids none else remote.read model ids (some fs)
  | none => remote.read model ids none

/-- OdooJsonRpcClient.search_read: fields and order keywords are passed only
when truthy; limit and offset are always passed. -/
def client_search_read (remote : Remote) (model : String) (domain : Domain)
    (fields : Option (List String)) (limit offset : Int) (order : Option String) : List Record :=
  let f := match fields with
    | some fs => if fs.isEmpty then none else some fs
    | none => none
  let o := match order with
    | some s => if s = "" then none else some s
    | none => none
  remote.search_read model domain f limit offset o

/-- OdooJsonRpcClient.fields_get: allfields and attributes keywords are passed
only when truthy. -/
def client_fields_get (remote : Remote) (model : String)
    (allfields attributes : Option (List String)) : FieldsGetResult :=
  let af := match allfields with
    | some l => if l.isEmpty then none else some l
    | none => none
  let attrs := match attributes with
    | some l => if l.isEmpty then none else some l
    | none => none
  remote.fields_get model af attrs

/-- The list comprehension of get_safe_fields: keep every field name whose
type value is not one of the dangerous types.  A missing or non-string type
value is not in the string set DANGEROUS_FIELD_TYPES, so such a field is
kept, exactly as in Python. -/
def safe_filter (fields_data : FieldsGetResult) : List String :=
  (fields_data.filter (fun fi =>
    match dictLookup fi.2 "type" with
    | some (Json.str t) => decide (t ∉ DANGEROUS_FIELD_TYPES)
    | some _ => true
    | none => true)).map (fun fi => fi.1)

/-- get_safe_fields from the source: fetch field metadata requesting only the
type attribute and keep the non-dangerous field names. -/
def get_safe_fields (remote : Remote) (model : String) : List String :=
  safe_filter (client_fields_get remote model none (some ["type"]))

/-- The per-record URL-attachment loop body shared by search_records and
read_records: when the record carries an id key, the value at the reserved
key is set to the interpolated record URL; otherwise the record is unchanged. -/
def attach_url (ODOO_URL : String) (model : String) (record : Record) : Record :=
  match dictLookup record "id" with
  | some v => dictSet record "_url" (Json.str (ODOO_URL ++ "/odoo/" ++ model ++ "/" ++ pyStr v))
  | none => record

/-- A remote method invocation issued by a tool, recorded in the call trace. -/
inductive RemoteCall where
  | create (model : String)
  | write (model : String)
  | unlink (model : String)
  | execute (model method : String)
deriving DecidableEq

/-- The values argument of create_record: a single mapping or a list of
mappings (the isinstance list test in the source branches on this). -/
inductive CreateValues where
  | single (v : Record)
  | batch (vs : List Record)

/-- The result of the remote create call: one id or a list of ids. -/
inductive CreateResult where
  | one (i : Int)
  | many (ids : List Int)

/-- create_record from the source.  The remote create result is a parameter;
the second component is the trace of remote calls issued.  When the guard
raises, the error propagates and the trace is empty. -/
def create_record (ODOO_URL : String) (READONLY_MODE : Bool) (model : String)
    (values : CreateValues) (remote_create : CreateResult) :
    Except ToolError Json × List RemoteCall :=
  match check_readonly_mode READONLY_MODE "create" with
  | .error e => (.error e, [])
  | .ok _ =>
    match values with
    | .batch _ =>
      let ids := match remote_create with
        | .many l => l
        | .one i => [i]
      (.ok (Json.obj [("ids", Json.arr (ids.map Json.int)),
                      ("count", Json.int (ids.length : Int)),
                      ("success", Json.bool true),
                      ("urls", Json.arr (ids.map (fun i =>
                        Json.str (build_record_url ODOO_URL model i))))]),
       [RemoteCall.create model])
    | .single _ =>
      let result_json := match remote_create with
        | .one i => Json.int i
        | .many l => Json.arr (l.map Json.int)
      (.ok (Json.obj [("id", result_json),
                      ("success", Json.bool true),
                      ("url", Json.str (ODOO_URL ++ "/odoo/" ++ model ++ "/" ++
                        pyStr result_json))]),
       [RemoteCall.create model])

/-- update_record from the source.  The boolean result of the remote write
call is a parameter.  A false remote result yields a structured failure
object, not an error. -/
def update_record (ODOO_URL : String) (READONLY_MODE : Bool) (model : String)
    (ids : List Int) (values : Record) (remote_write : Bool) :
    Except ToolError Json × List RemoteCall :=
  match check_readonly_mode READONLY_MODE "write" with
  | .error e => (.error e, [])
  | .ok _ =>
    if remote_write then
      (.ok (Json.obj [("success", Json.bool true),
                      ("updated_ids", Json.arr (ids.map Json.int)),
                      ("urls", Json.arr (ids.map (fun i =>
                        Json.str (build_record_url ODOO_URL model i))))]),
       [RemoteCall.write model])
    else
      (.ok (Json.obj [("success", Json.bool false),
                      ("updated_ids", Json.arr (ids.map Json.int)),
                      ("error", Json.str "Update operation failed")]),
       [RemoteCall.write model])

/-- delete_record from the source. -/
def delete_record (READONLY_MODE : Bool) (model : String) (ids : List Int)
    (remote_unlink : Bool) : Except ToolError Json × List RemoteCall :=
  match check_readonly_mode READONLY_MODE "unlink" with
  | .error e => (.error e, [])
  | .ok _ =>
    (.ok (Json.obj [("success", Json.bool remote_unlink),
                    ("deleted_ids", Json.arr (ids.map Json.int))]),
     [RemoteCall.unlink model])

/-- execute_method from the source: the guard is checked against the method
name, then the call is forwarded to the remote store. -/
def execute_method (READONLY_MODE : Bool) (model : String) (method : String)
    (args : List Json) (kwargs : List (String × Json)) (remote_result : Json) :
    Except ToolError Json × List RemoteCall :=
  match check_readonly_mode READONLY_MODE method with
  | .error e => (.error e, [])
  | .ok _ => (.ok remote_result, [RemoteCall.execute model method])

/-- search_records from the source: a None domain becomes the empty domain, a
None field list is replaced by the safe fields, records are fetched, the
total is counted, each record gets the URL attached, and the framed result is
returned. -/
def search_records (ODOO_URL : String) (remote : Remote) (model : String)
    (domain : Option Domain) (fields : Option (List String)) (limit offset : Int)
    (order : Option String) : Json :=
  let domain := domain.getD []
  let fields := match fields with
    | none => get_safe_fields remote model
    | some fs => fs
  let records := client_search_read remote model domain (some fields) limit offset order
  let total := remote.search_count model domain
  let records := records.map (attach_url ODOO_URL model)
  Json.obj [("records", Json.arr (records.map Json.obj)),
            ("total", Json.int total),
            ("limit", Json.int limit),
            ("offset", Json.int offset)]

/-- count_records from the source. -/
def count_records (remote : Remote) (model : String) (domain : Option Domain) : Json :=
  let domain := domain.getD []
  Json.obj [("model", Json.str model), ("count", Json.int (remote.search_count model domain))]

/-- read_records from the source: a None field list is replaced by the safe
fields, then the records are read and each gets the URL attached. -/
def read_records (ODOO_URL : String) (remote : Remote) (model : String)
    (ids : List Int) (fields : Option (List String)) : Json :=
  let fields := match fields with
    | none => get_safe_fields remote model
    | some fs => fs
  let records := client_read remote model ids (some fields)
  Json.arr ((records.map (attach_url ODOO_URL model)).map Json.obj)

/-- get_record from the source (the single-record resource): reads the record
with the safe fields; an empty result yields the not-found sentinel object,
otherwise the first record is returned. -/
def get_record (remote : Remote) (model_name : String) (record_id : Int) : Json :=
  let fields := get_safe_fields remote model_name
  let records := client_read remote model_name [record_id] (some fields)
  match records with
  | [] => Json.obj [("error", Json.str "Record not found")]
  | r :: _ => Json.obj r

/-- Boolean test that the first list is a leading segment of the second
(Python str.startswith on character lists). -/
def isPre : List Char → List Char → Bool
  | [], _ => true
  | _ :: _, [] => false
  | a :: as, b :: bs => a = b && isPre as bs

/-- Python substring membership test, needle in hay, on character lists. -/
def containsSub (needle : List Char) : List Char → Bool
  | [] => isPre needle []
  | c :: t => isPre needle (c :: t) || containsSub needle t

/-- Python str.lower(), on the ASCII fragment exercised here. -/
def strLower (s : String) : String := String.mk (s.data.map Char.toLower)

/-- DEFAULT_FIELD_ATTRIBUTES from the source. -/
def DEFAULT_FIELD_ATTRIBUTES : List String :=
  ["type", "string", "help", "required", "readonly", "store",
   "selection", "comodel_name", "inverse_name", "domain"]

/-- The filtering and sorting loop of get_fields over fetched field metadata:
a field is kept when the filter is falsy or is contained case-insensitively
in the field name, and the kept entries are sorted by field name ascending.
Each output element models the merged dict with the name key first followed
by the attribute mapping, as the pair (name, attributes); the attribute
mappings returned by fields_get never carry a name key themselves, so the
merge never collides. -/
def get_fields_process (fields_data : FieldsGetResult) (field_filter : Option String) :
    List (String × FieldInfo) :=
  let result := fields_data.filter (fun fi =>
    match field_filter with
    | some f => if f = "" then true else containsSub (strLower f).data (strLower fi.1).data
    | none => true)
  List.insertionSort (fun a b => a.1 ≤ b.1) result

/-- get_fields from the source: resolve the attribute list (a falsy argument
becomes the default list), fetch the metadata, then filter and sort. -/
def get_fields (remote : Remote) (model : String) (field_filter : Option String)
    (fields : Option (List String)) (attributes : Option (List String)) :
    List (String × FieldInfo) :=
  let attrs := match attributes with
    | some l => if l.isEmpty then DEFAULT_FIELD_ATTRIBUTES else l
    | none => DEFAULT_FIELD_ATTRIBUTES
  let fields_data := client_fields_get remote model fields (some attrs)
  get_fields_process fields_data field_filter

/-- Strip every trailing slash character (Python str.rstrip with a slash). -/
def rstrip_slash (cs : List Char) : List Char :=
  (cs.reverse.dropWhile (fun c => c = '/')).reverse

/-- Value of a nonempty all-digit character list, else none. -/
def digitsVal (cs : List Char) : Option Nat :=
  if cs.isEmpty then none
  else if cs.all (fun c => c.isDigit) then
    some (cs.foldl (fun acc c => acc * 10 + (c.toNat - 48)) 0)
  else none

/-- Python int() on a string, modelled on its core domain: an optional sign
followed by decimal digits.  Inputs outside this domain (which in full Python
may also carry surrounding whitespace or digit-group underscores, neither of
which can occur in a port position here) yield none, the ValueError case. -/
def pyInt (cs : List Char) : Option Int :=
  match cs with
  | [] => none
  | c :: rest =>
    if c = '+' then (digitsVal rest).map (fun n => (n : Int))
    else if c = '-' then (digitsVal rest).map (fun n => -(n : Int))
    else (digitsVal (c :: rest)).map (fun n => (n : Int))

/-- Python str.rsplit at the last colon, returning the parts before and after
it (the caller guarantees a colon is present). -/
def rsplit_colon (cs : List Char) : List Char × List Char :=
  (((cs.reverse.dropWhile (fun c => c ≠ ':')).drop 1).reverse,
   (cs.reverse.takeWhile (fun c => c ≠ ':')).reverse)

/-- The host, port, and wire-protocol variant extracted from an address. -/
structure ConnParams where
  host : List Char
  port : Int
  protocol : String
deriving DecidableEq

/-- The scheme-selection step of OdooJsonRpcClient.connect: a secure-scheme
prefix selects the encrypted variant and is stripped by its length (8), the
insecure prefix selects the plain variant and is stripped by its length (7),
anything else is a bare host on the plain variant. -/
def scheme_split (u : List Char) : List Char × String :=
  if isPre "https://".data u then (u.drop 8, "json2+ssl")
  else if isPre "http://".data u then (u.drop 7, "json2")
  else (u, "json2")

/-- The port-handling step of OdooJsonRpcClient.connect: when the host
contains a colon, split at the last one and convert the part after it with
int() (none is the ValueError case); otherwise keep the whole host with the
default port 8069. -/
def host_port (host : List Char) (protocol : String) : Option ConnParams :=
  if ':' ∈ host then
    match pyInt (rsplit_colon host).2 with
    | some p => some ⟨(rsplit_colon host).1, p, protocol⟩
    | none => none
  else some ⟨host, 8069, protocol⟩

/-- The address-parsing portion of OdooJsonRpcClient.connect: strip trailing
slashes, select the protocol variant and strip a recognized scheme prefix,
then split host and port. -/
def connect_parse (url : String) : Option ConnParams :=
  let hp := scheme_split (rstrip_slash url.data)
  host_port hp.1 hp.2

/-! ### Helper lemmas -/

theorem pyRepr_int (i : Int) : pyRepr (Json.int i) = toString i := by
  simp [pyRepr]

theorem pyStr_int (i : Int) : pyStr (Json.int i) = toString i := by
  simp [pyStr, pyRepr_int]

theorem dictSet_cons_eq {a : String × Json} {t : List (String × Json)} {k : String} {v : Json}
    (h : a.1 = k) :
    dictSet (a :: t) k v =
      (k, v) :: t.map (fun kv => if kv.1 = k then (k, v) else kv) := by
  simp [dictSet, h]

theorem dictSet_cons_ne {a : String × Json} {t : List (String × Json)} {k : String} {v : Json}
    (h : ¬ a.1 = k) :
    dictSet (a :: t) k v = a :: dictSet t k v := by
  by_cases ht : t.any (fun kv => kv.1 = k)
  · simp [dictSet, h, ht]
  · simp [dictSet, h, ht]

theorem dictLookup_cons {a : String × Json} {t : List (String × Json)} {k : String} :
    dictLookup (a :: t) k = if a.1 = k then some a.2 else dictLookup t k := by
  by_cases h : a.1 = k <;> simp [dictLookup, List.find?, h]

theorem dictLookup_map_set {t : List (String × Json)} {k k' : String} {v : Json}
    (hk : ¬ k = k') :
    dictLookup (t.map (fun kv => if kv.1 = k then (k, v) else kv)) k' = dictLookup t k' := by
  induction t with
  | nil => rfl
  | cons a t ih =>
    simp only [List.map_cons]
    by_cases ha : a.1 = k
    · have ha' : ¬ a.1 = k' := by rw [ha]; exact hk
      have hk2 : ((k, v) : String × Json).1 = k' ↔ False := by simpa using hk
      rw [if_pos ha, dictLookup_cons, dictLookup_cons, if_neg ha', if_neg (by simpa using hk), ih]
    · rw [if_neg ha, dictLookup_cons, dictLookup_cons]
      by_cases ha' : a.1 = k'
      · rw [if_pos ha', if_pos ha']
      · rw [if_neg ha', if_neg ha', ih]

theorem dictLookup_dictSet_self (d : List (String × Json)) (k : String) (v : Json) :
    dictLookup (dictSet d k v) k = some v := by
  induction d with
  | nil => simp [dictSet, dictLookup, List.find?]
  | cons a t ih =>
    by_cases h : a.1 = k
    · rw [dictSet_cons_eq h, dictLookup_cons]
      simp
    · rw [dictSet_cons_ne h, dictLookup_cons, if_neg h, ih]

theorem dictLookup_dictSet_ne (d : List (String × Json)) (k k' : String) (v : Json)
    (hk : ¬ k = k') :
    dictLookup (dictSet d k v) k' = dictLookup d k' := by
  induction d with
  | nil => simp [dictSet, dictLookup, List.find?, hk]
  | cons a t ih =>
    by_cases h : a.1 = k
    · have ha' : ¬ a.1 = k' := by rw [h]; exact hk
      rw [dictSet_cons_eq h, dictLookup_cons, dictLookup_cons, if_neg hk, if_neg ha',
        dictLookup_map_set hk]
    · rw [dictSet_cons_ne h, dictLookup_cons, dictLookup_cons]
      by_cases h' : a.1 = k'
      · simp [h']
      · rw [if_neg h', if_neg h', ih]

theorem isPre_iff (n h : List Char) : isPre n h = true ↔ n <+: h := by
  induction n generalizing h with
  | nil => simp [isPre]
  | cons a as ih =>
    cases h with
    | nil => simp [isPre]
    | cons b bs => simp [isPre, List.cons_prefix_cons, ih bs]

theorem containsSub_iff (n : List Char) (h : List Char) :
    containsSub n h = true ↔ n <:+: h := by
  induction h with
  | nil => simp [containsSub, isPre_iff]
  | cons c t ih =>
    show (isPre n (c :: t) || containsSub n t) = true ↔ _
    rw [Bool.or_eq_true, isPre_iff, ih, List.infix_cons_iff]

/-- The policy error message raised for a blocked operation. -/
def policy_message (operation : String) : String :=
  "Operation " ++ sq ++ operation ++ sq ++
    " is not allowed in READONLY_MODE. Set READONLY_MODE=false to enable write operations."

theorem check_readonly_mode_eq (r : Bool) (op : String) :
    check_readonly_mode r op =
      if r = true ∧ op ∈ WRITE_METHODS then .error ⟨policy_message op⟩ else .ok () := rfl

theorem takeWhile_append_all {p : Char → Bool} :
    ∀ {l₁ : List Char} (l₂ : List Char), (∀ a ∈ l₁, p a = true) →
      (l₁ ++ l₂).takeWhile p = l₁ ++ l₂.takeWhile p
  | [], l₂, _ => rfl
  | a :: t, l₂, h => by
    have ha : p a = true := h a (List.mem_cons_self a t)
    simp only [List.cons_append, List.takeWhile_cons, ha, if_true]
    rw [takeWhile_append_all l₂ (fun b hb => h b (List.mem_cons_of_mem a hb))]

theorem dropWhile_append_all {p : Char → Bool} :
    ∀ {l₁ : List Char} (l₂ : List Char), (∀ a ∈ l₁, p a = true) →
      (l₁ ++ l₂).dropWhile p = l₂.dropWhile p
  | [], l₂, _ => rfl
  | a :: t, l₂, h => by
    have ha : p a = true := h a (List.mem_cons_self a t)
    simp only [List.cons_append, List.dropWhile_cons, ha, if_true]
    exact dropWhile_append_all l₂ (fun b hb => h b (List.mem_cons_of_mem a hb))

/-! ### Claim theorems -/

/-- C1: check_readonly_mode raises the policy error, carrying the operation
name plus the fixed remediation text, iff the readonly flag is enabled and
the operation is in the mutating set.  When the guard raises in
create_record, update_record, delete_record, or execute_method the remote
client is never invoked (the call trace is empty and the error propagates),
and with the flag disabled every such call reaches the proxy (the trace
holds exactly the one remote call). -/
theorem C1_write_policy_guard (READONLY_MODE : Bool) (op url model method : String)
    (values : CreateValues) (rc : CreateResult) (ids : List Int) (vals : Record)
    (b : Bool) (args : List Json) (kwargs : List (String × Json)) (res : Json) :
    (check_readonly_mode READONLY_MODE op = .error ⟨policy_message op⟩
      ↔ (READONLY_MODE = true ∧ op ∈ WRITE_METHODS)) ∧
    (¬ (READONLY_MODE = true ∧ op ∈ WRITE_METHODS) →
      check_readonly_mode READONLY_MODE op = .ok ()) ∧
    (create_record url true model values rc = (.error ⟨policy_message "create"⟩, [])) ∧
    (update_record url true model ids vals b = (.error ⟨policy_message "write"⟩, [])) ∧
    (delete_record true model ids b = (.error ⟨policy_message "unlink"⟩, [])) ∧
    (op ∈ WRITE_METHODS →
      execute_method true model op args kwargs res = (.error ⟨policy_message op⟩, [])) ∧
    ((create_record url false model values rc).2 = [RemoteCall.create model]) ∧
    ((update_record url false model ids vals b).2 = [RemoteCall.write model]) ∧
    ((delete_record false model ids b).2 = [RemoteCall.unlink model]) ∧
    ((execute_method false model method args kwargs res).2 =
      [RemoteCall.execute model method]) := by
  have hok : ∀ o : String, check_readonly_mode false o = .ok () := by
    intro o
    simp [check_readonly_mode_eq]
  refine ⟨?_, ?_, ?_, ?_, ?_, ?_, ?_, ?_, ?_, ?_⟩
  · rw [check_readonly_mode_eq]
    by_cases hc : READONLY_MODE = true ∧ op ∈ WRITE_METHODS
    · simp [hc]
    · simp [hc]
  · intro hc
    rw [check_readonly_mode_eq, if_neg hc]
  · have hc : check_readonly_mode true "create" = .error ⟨policy_message "create"⟩ := by
      rw [check_readonly_mode_eq, if_pos ⟨rfl, by simp [WRITE_METHODS]⟩]
    simp [create_record, hc]
  · have hc : check_readonly_mode true "write" = .error ⟨policy_message "write"⟩ := by
      rw [check_readonly_mode_eq, if_pos ⟨rfl, by simp [WRITE_METHODS]⟩]
    simp [update_record, hc]
  · have hc : check_readonly_mode true "unlink" = .error ⟨policy_message "unlink"⟩ := by
      rw [check_readonly_mode_eq, if_pos ⟨rfl, by simp [WRITE_METHODS]⟩]
    simp [delete_record, hc]
  · intro hop
    have hc : check_readonly_mode true op = .error ⟨policy_message op⟩ := by
      rw [check_readonly_mode_eq, if_pos ⟨rfl, hop⟩]
    simp [execute_method, hc]
  · cases values <;> cases rc <;> simp [create_record, hok]
  · cases b <;> simp [update_record, hok]
  · simp [delete_record, hok]
  · simp [execute_method, hok]

/-- Witness for C1 at concrete inputs: with the flag on, a concrete
create_record call raises and issues no remote call; with the flag off, a
concrete update_record call reaches the proxy. -/
theorem C1_write_policy_guard_witness :
    create_record "http://localhost:8019" true "res.partner" (.single []) (.one 1) =
      (.error ⟨policy_message "create"⟩, []) ∧
    (update_record "http://localhost:8019" false "res.partner" [1] [] true).2 =
      [RemoteCall.write "res.partner"] ∧
    check_readonly_mode true "copy" = .error ⟨policy_message "copy"⟩ := by
  refine ⟨?_, ?_, ?_⟩
  · exact (C1_write_policy_guard true "copy" "http://localhost:8019" "res.partner" "m"
      (.single []) (.one 1) [1] [] true [] [] Json.null).2.2.1
  · exact (C1_write_policy_guard false "copy" "http://localhost:8019" "res.partner" "m"
      (.single []) (.one 1) [1] [] true [] [] Json.null).2.2.2.2.2.2.2.1
  · exact (C1_write_policy_guard true "copy" "http://localhost:8019" "res.partner" "m"
      (.single []) (.one 1) [1] [] true [] [] Json.null).1.mpr ⟨rfl, by simp [WRITE_METHODS]⟩

/-- C2: create_record mirrors the input form.  A single mapping yields a
response with a singular id, success true, and a singular url.  A batch of n
mappings, with the remote returning one id per mapping, yields ids of length
n, a count equal to the length of ids, success true, and a parallel urls
sequence whose entry at each index is the record URL built from the id at
that index. -/
theorem C2_create_record_shape (url model : String) (v : Record) (vs : List Record)
    (i : Int) (ids : List Int) (h : ids.length = vs.length) :
    create_record url false model (.single v) (.one i) =
      (.ok (Json.obj [("id", Json.int i), ("success", Json.bool true),
                      ("url", Json.str (build_record_url url model i))]),
       [RemoteCall.create model]) ∧
    create_record url false model (.batch vs) (.many ids) =
      (.ok (Json.obj [("ids", Json.arr (ids.map Json.int)),
                      ("count", Json.int (ids.length : Int)),
                      ("success", Json.bool true),
                      ("urls", Json.arr (ids.map (fun k =>
                        Json.str (build_record_url url model k))))]),
       [RemoteCall.create model]) ∧
    (ids.map Json.int).length = vs.length ∧
    (ids.map (fun k => Json.str (build_record_url url model k))).length = vs.length ∧
    (∀ j : Fin ids.length,
      (ids.map (fun k => Json.str (build_record_url url model k))).get
        ⟨j.1, by simpa using j.2⟩ = Json.str (build_record_url url model (ids.get j))) := by
  have hok : check_readonly_mode false "create" = .ok () := by simp [check_readonly_mode_eq]
  refine ⟨?_, ?_, by simpa using h, by simpa using h, ?_⟩
  · simp [create_record, hok, pyStr_int, build_record_url]
  · simp [create_record, hok]
  · intro j
    simp [List.get_eq_getElem, List.getElem_map]

/-- Witness for C2 at a concrete batch of two mappings with two remote ids,
and a concrete single mapping. -/
theorem C2_create_record_shape_witness :
    create_record "http://localhost:8019" false "res.partner" (.batch [[], []]) (.many [5, 9]) =
      (.ok (Json.obj [("ids", Json.arr [Json.int 5, Json.int 9]),
                      ("count", Json.int 2),
                      ("success", Json.bool true),
                      ("urls", Json.arr [Json.str "http://localhost:8019/odoo/res.partner/5",
                                         Json.str "http://localhost:8019/odoo/res.partner/9"])]),
       [RemoteCall.create "res.partner"]) ∧
    create_record "http://localhost:8019" false "res.partner" (.single []) (.one 5) =
      (.ok (Json.obj [("id", Json.int 5), ("success", Json.bool true),
                      ("url", Json.str "http://localhost:8019/odoo/res.partner/5")]),
       [RemoteCall.create "res.partner"]) := by
  have h := C2_create_record_shape "http://localhost:8019" "res.partner" [] [[], []] 5 [5, 9] rfl
  constructor
  · simpa [build_record_url] using h.2.1
  · simpa [build_record_url] using h.1

/-- C3: with the remote write returning false, update_record yields the
structured failure object with success false, the untouched id list, and the
fixed error text, and does not raise; with the remote returning true it
yields success true plus one URL per id. -/
theorem C3_update_record_soft_failure (url model : String) (ids : List Int) (vals : Record) :
    update_record url false model ids vals false =
      (.ok (Json.obj [("success", Json.bool false),
                      ("updated_ids", Json.arr (ids.map Json.int)),
                      ("error", Json.str "Update operation failed")]),
       [RemoteCall.write model]) ∧
    update_record url false model ids vals true =
      (.ok (Json.obj [("success", Json.bool true),
                      ("updated_ids", Json.arr (ids.map Json.int)),
                      ("urls", Json.arr (ids.map (fun k =>
                        Json.str (build_record_url url model k))))]),
       [RemoteCall.write model]) ∧
    (ids.map (fun k => Json.str (build_record_url url model k))).length = ids.length := by
  refine ⟨?_, ?_, by simp⟩ <;> simp [update_record, check_readonly_mode_eq]

theorem pad2_length (n : Nat) (h : n < 100) : (pad2 n).length = 2 := by
  interval_cases n <;> rfl

/-- C7: the scalar formatter renders the sample date-time as its space-joined
text with no timezone suffix and the sample date as its dashed text, passes
every other value through its default textual form, and in general the
date-time rendering is the date rendering, one space, and an eight-character
HH:MM:SS time field (so nothing is left for a timezone offset). -/
theorem C7_format_datetime_spec :
    format_datetime (.datetime 2024 3 5 10 0 0) = "2024-03-05 10:00:00" ∧
    format_datetime (.date 2024 3 5) = "2024-03-05" ∧
    (∀ s, format_datetime (.other s) = s) ∧
    (∀ y mo d h mi s, format_datetime (.datetime y mo d h mi s) =
      format_datetime (.date y mo d) ++ " " ++ (pad2 h ++ ":" ++ pad2 mi ++ ":" ++ pad2 s)) ∧
    (∀ y mo d h mi s, h < 100 → mi < 100 → s < 100 →
      (format_datetime (.datetime y mo d h mi s)).length =
        (format_datetime (.date y mo d)).length + 9) := by
  refine ⟨rfl, rfl, fun s => rfl, ?_, ?_⟩
  · intro y mo d h mi s
    simp [format_datetime, String.append_assoc]
  · intro y mo d h mi s hh hmi hs
    have h1 : (" " : String).length = 1 := rfl
    have h2 : (":" : String).length = 1 := rfl
    simp [format_datetime, String.length_append, pad2_length _ hh, pad2_length _ hmi,
      pad2_length _ hs, h1, h2]

/-- Witness for C7: the general decomposition instantiated at the sample
date-time. -/
theorem C7_format_datetime_spec_witness :
    (format_datetime (.datetime 2024 3 5 10 0 0)).length =
      (format_datetime (.date 2024 3 5)).length + 9 :=
  C7_format_datetime_spec.2.2.2.2 2024 3 5 10 0 0 (by norm_num) (by norm_num) (by norm_num)

/-- A remote store with no data: every read-path call yields nothing. -/
def remoteEmpty : Remote :=
  ⟨fun _ _ _ _ _ _ => [], fun _ _ => 0, fun _ _ _ => [], fun _ _ _ => []⟩

/-- A remote store whose read always yields one record with id 1. -/
def remoteOne : Remote :=
  ⟨fun _ _ _ _ _ _ => [], fun _ _ => 0, fun _ _ _ => [[("id", Json.int 1)]], fun _ _ _ => []⟩

/-- C8: when the underlying read returns no rows, the single-record lookup
yields the structured not-found payload (no exception is modelled: the
function is total); when at least one row is returned it yields the first
record. -/
theorem C8_get_record_not_found (remote : Remote) (model : String) (rid : Int) :
    (client_read remote model [rid] (some (get_safe_fields remote model)) = [] →
      get_record remote model rid = Json.obj [("error", Json.str "Record not found")]) ∧
    (∀ r rest, client_read remote model [rid] (some (get_safe_fields remote model)) = r :: rest →
      get_record remote model rid = Json.obj r) := by
  constructor
  · intro h
    simp [get_record, h]
  · intro r rest h
    simp [get_record, h]

/-- Witness for C8 on concrete remotes: an empty read yields the sentinel, a
one-row read yields the row. -/
theorem C8_get_record_not_found_witness :
    get_record remoteEmpty "res.partner" 1 = Json.obj [("error", Json.str "Record not found")] ∧
    get_record remoteOne "res.partner" 1 = Json.obj [("id", Json.int 1)] :=
  ⟨(C8_get_record_not_found remoteEmpty "res.partner" 1).1 rfl,
   (C8_get_record_not_found remoteOne "res.partner" 1).2 [("id", Json.int 1)] [] rfl⟩

/-- C4: over field metadata in which every field declares a type,
get_safe_fields returns exactly the names of the fields whose declared type
is not one of binary, image, html; and its output is a function of that
metadata alone, so repeated calls over unchanged metadata agree. -/
theorem C4_get_safe_fields_spec (remote : Remote) (model : String)
    (hty : ∀ p ∈ remote.fields_get model none (some ["type"]),
      ∃ t, dictLookup p.2 "type" = some (Json.str t)) :
    (∀ name, name ∈ get_safe_fields remote model ↔
      ∃ info t, (name, info) ∈ remote.fields_get model none (some ["type"]) ∧
        dictLookup info "type" = some (Json.str t) ∧ t ∉ DANGEROUS_FIELD_TYPES) ∧
    (∀ remote2 : Remote,
      remote2.fields_get model none (some ["type"]) =
        remote.fields_get model none (some ["type"]) →
      get_safe_fields remote2 model = get_safe_fields remote model) := by
  have hdata : client_fields_get remote model none (some ["type"]) =
      remote.fields_get model none (some ["type"]) := rfl
  constructor
  · intro name
    constructor
    · intro hmem
      simp only [get_safe_fields, safe_filter, hdata, List.mem_map, List.mem_filter] at hmem
      obtain ⟨fi, ⟨hfi, hp⟩, hname⟩ := hmem
      obtain ⟨t, ht⟩ := hty fi hfi
      rw [ht] at hp
      simp only [decide_eq_true_eq] at hp
      refine ⟨fi.2, t, ?_, ht, hp⟩
      rw [← hname]
      simpa using hfi
    · rintro ⟨info, t, hmem, hlook, hnd⟩
      simp only [get_safe_fields, safe_filter, hdata, List.mem_map, List.mem_filter]
      exact ⟨(name, info), ⟨hmem, by simp [hlook, hnd]⟩, rfl⟩
  · intro remote2 h
    have hd2 : get_safe_fields remote2 model =
        safe_filter (remote2.fields_get model none (some ["type"])) := rfl
    rw [hd2, h]
    rfl

/-- A one-model remote store whose field metadata holds one field per
relevant type kind, used to witness C4. -/
def remoteFields : Remote :=
  ⟨fun _ _ _ _ _ _ => [], fun _ _ => 0, fun _ _ _ => [],
   fun _ _ _ =>
     [("name", [("type", Json.str "char")]),
      ("image_1920", [("type", Json.str "image")]),
      ("website_description", [("type", Json.str "html")]),
      ("avatar", [("type", Json.str "binary")]),
      ("partner_id", [("type", Json.str "many2one")])]⟩

/-- Witness for C4 on concrete metadata: the char and many2one fields are
kept, the image, html and binary fields are dropped. -/
theorem C4_get_safe_fields_spec_witness :
    ("name" ∈ get_safe_fields remoteFields "res.partner" ↔
      ∃ info t, ("name", info) ∈ remoteFields.fields_get "res.partner" none (some ["type"]) ∧
        dictLookup info "type" = some (Json.str t) ∧ t ∉ DANGEROUS_FIELD_TYPES) ∧
    get_safe_fields remoteFields "res.partner" = ["name", "partner_id"] := by
  constructor
  · refine (C4_get_safe_fields_spec remoteFields "res.partner" ?_).1 "name"
    intro p hp
    simp only [remoteFields, List.mem_cons, List.not_mem_nil, or_false] at hp
    rcases hp with h | h | h | h | h <;> (subst h; exact ⟨_, rfl⟩)
  · decide

/-- Projection of a key out of a JSON object response. -/
def jsonField (j : Json) (k : String) : Option Json :=
  match j with
  | .obj kvs => dictLookup kvs k
  | _ => none

/-- C9: when the remote honors the limit argument of search_read, the records
list in the search_records response is never longer than the limit; and the
total value of the response comes from search_count on the model and domain
alone, so two runs differing only in limit and offset report the same
total. -/
theorem C9_search_records_limit_total (url : String) (remote : Remote) (model : String)
    (domain : Option Domain) (fields : Option (List String))
    (limit offset limit2 offset2 : Int) (order : Option String)
    (hlim : ∀ (f : Option (List String)) (off : Int) (ord : Option String),
      ((remote.search_read model (domain.getD []) f limit off ord).length : Int) ≤ limit) :
    (∃ recs : List Json,
      jsonField (search_records url remote model domain fields limit offset order) "records" =
        some (Json.arr recs) ∧ (recs.length : Int) ≤ limit) ∧
    (jsonField (search_records url remote model domain fields limit offset order) "total" =
      jsonField (search_records url remote model domain fields limit2 offset2 order) "total") ∧
    (jsonField (search_records url remote model domain fields limit offset order) "total" =
      some (Json.int (remote.search_count model (domain.getD [])))) := by
  refine ⟨⟨((client_search_read remote model (domain.getD [])
      (some (match fields with
        | none => get_safe_fields remote model
        | some fs => fs)) limit offset order).map (attach_url url model)).map Json.obj,
      rfl, ?_⟩, rfl, rfl⟩
  simp only [List.length_map]
  exact hlim _ offset _

/-- Witness for C9 on a concrete remote returning no rows and count zero. -/
theorem C9_search_records_limit_total_witness :
    jsonField (search_records "http://localhost:8019" remoteEmpty "res.partner"
        none none 100 0 none) "total" =
      some (Json.int (remoteEmpty.search_count "res.partner" [])) :=
  (C9_search_records_limit_total "http://localhost:8019" remoteEmpty "res.partner"
    none none 100 0 80 40 none
    (by intro f off ord; simp [remoteEmpty])).2.2

/-- C10: get_fields returns the field descriptors sorted ascending by field
name; with a filter supplied it retains exactly the entries of the fetched
metadata whose name contains the filter as a case-insensitive substring; and
the tool is this filter-and-sort applied to the metadata fetched with the
resolved attribute list. -/
theorem C10_get_fields_sorted_filter (remote : Remote) (model : String)
    (field_filter : Option String) (fields : Option (List String))
    (attributes : Option (List String)) :
    (∀ (data : FieldsGetResult) (ff : Option String),
      List.Sorted (fun a b => a.1 ≤ b.1) (get_fields_process data ff)) ∧
    (∀ (data : FieldsGetResult) (f : String) (e : String × FieldInfo),
      e ∈ get_fields_process data (some f) ↔
        e ∈ data ∧ (strLower f).data <:+: (strLower e.1).data) ∧
    (get_fields remote model field_filter fields attributes =
      get_fields_process
        (client_fields_get remote model fields
          (some (match attributes with
            | some l => if l.isEmpty then DEFAULT_FIELD_ATTRIBUTES else l
            | none => DEFAULT_FIELD_ATTRIBUTES)))
        field_filter) := by
  refine ⟨?_, ?_, rfl⟩
  · intro data ff
    haveI : IsTotal (String × FieldInfo) (fun a b => a.1 ≤ b.1) :=
      ⟨fun a b => le_total a.1 b.1⟩
    haveI : IsTrans (String × FieldInfo) (fun a b => a.1 ≤ b.1) :=
      ⟨fun a b c hab hbc => le_trans hab hbc⟩
    exact List.sorted_insertionSort _ _
  · intro data f e
    show e ∈ List.insertionSort _ (data.filter _) ↔ _
    rw [(List.perm_insertionSort _ _).mem_iff, List.mem_filter]
    by_cases hf : f = ""
    · subst hf
      simp [strLower]
    · simp only [hf, if_false, containsSub_iff]

theorem attach_url_of_int (url model : String) (r : Record) (i : Int)
    (h : dictLookup r "id" = some (Json.int i)) :
    attach_url url model r = dictSet r "_url" (Json.str (build_record_url url model i)) := by
  simp [attach_url, h, pyStr_int, build_record_url]

/-- A remote store whose read yields one record already carrying a caller
field named _url, used to exhibit the overwrite. -/
def remoteC6 : Remote :=
  ⟨fun _ _ _ _ _ _ => [], fun _ _ => 0,
   fun _ _ _ => [[("id", Json.int 7), ("_url", Json.str "keep")]], fun _ _ _ => []⟩

/-- C6 counterexample: a record that arrives with id 7 and a caller-supplied
field _url holding the value keep leaves read_records with that value
replaced by the computed record URL, so the claim that no caller-supplied
field of the same name is overwritten is false on the code. -/
theorem C6_url_overwrite_counterexample :
    dictLookup [("id", Json.int 7), ("_url", Json.str "keep")] "_url" =
      some (Json.str "keep") ∧
    read_records "http://localhost:8019" remoteC6 "res.partner" [7] (some ["id", "_url"]) =
      Json.arr [Json.obj [("id", Json.int 7),
        ("_url", Json.str "http://localhost:8019/odoo/res.partner/7")]] ∧
    ("http://localhost:8019/odoo/res.partner/7" : String) ≠ "keep" := by
  refine ⟨rfl, ?_, by decide⟩
  have h : attach_url "http://localhost:8019" "res.partner"
      [("id", Json.int 7), ("_url", Json.str "keep")] =
      [("id", Json.int 7), ("_url", Json.str "http://localhost:8019/odoo/res.partner/7")] := by
    rw [attach_url_of_int "http://localhost:8019" "res.partner"
      [("id", Json.int 7), ("_url", Json.str "keep")] 7 rfl]
    rfl
  simp [read_records, client_read, remoteC6, h]

/-- C6 amended: for every record in a search_records or read_records result
that carries an id attribute, the response attaches the record URL under the
reserved key _url, overwriting any existing value at that key while leaving
the values of all other keys unchanged; records lacking an id attribute are
left unchanged. -/
theorem C6_attach_url_spec (url model : String) (r : Record) :
    (dictLookup r "id" = none → attach_url url model r = r) ∧
    (∀ i, dictLookup r "id" = some (Json.int i) →
      dictLookup (attach_url url model r) "_url" =
        some (Json.str (build_record_url url model i)) ∧
      (∀ k, ¬ k = "_url" → dictLookup (attach_url url model r) k = dictLookup r k)) ∧
    (∀ (remote : Remote) (ids : List Int) (fs : List String),
      read_records url remote model ids (some fs) =
        Json.arr (((client_read remote model ids (some fs)).map
          (attach_url url model)).map Json.obj)) ∧
    (∀ (remote : Remote) (dom : Option Domain) (fs : List String) (limit offset : Int)
        (order : Option String),
      jsonField (search_records url remote model dom (some fs) limit offset order) "records" =
        some (Json.arr (((client_search_read remote model (dom.getD []) (some fs)
          limit offset order).map (attach_url url model)).map Json.obj))) := by
  refine ⟨?_, ?_, fun remote ids fs => rfl, fun remote dom fs limit offset order => rfl⟩
  · intro h
    simp [attach_url, h]
  · intro i h
    rw [attach_url_of_int _ _ _ i h]
    exact ⟨dictLookup_dictSet_self _ _ _,
      fun k hk => dictLookup_dictSet_ne _ _ _ _ (fun he => hk he.symm)⟩

/-- Witness for C6 amended: a record without id is unchanged; a record with
id 3 gets the computed URL under _url. -/
theorem C6_attach_url_spec_witness :
    attach_url "http://localhost:8019" "res.partner" [("name", Json.str "A")] =
      [("name", Json.str "A")] ∧
    dictLookup (attach_url "http://localhost:8019" "res.partner" [("id", Json.int 3)]) "_url" =
      some (Json.str (build_record_url "http://localhost:8019" "res.partner" 3)) :=
  ⟨(C6_attach_url_spec "http://localhost:8019" "res.partner" [("name", Json.str "A")]).1 rfl,
   ((C6_attach_url_spec "http://localhost:8019" "res.partner" [("id", Json.int 3)]).2.1 3 rfl).1⟩

theorem rstrip_slash_append (l : List Char) : rstrip_slash (l ++ ['/']) = rstrip_slash l := by
  simp [rstrip_slash, List.reverse_append, List.dropWhile]

theorem rstrip_slash_noop (l : List Char) (h : l.getLast? ≠ some '/') :
    rstrip_slash l = l := by
  cases he : l.reverse with
  | nil =>
    have hl : l = [] := by simpa using congrArg List.reverse he
    simp [rstrip_slash, hl]
  | cons c t =>
    have hl : l = t.reverse ++ [c] := by
      have h1 := congrArg List.reverse he
      rw [List.reverse_reverse] at h1
      rw [h1, List.reverse_cons]
    have hc : ¬ c = '/' := by
      intro hcc
      apply h
      rw [hl, List.getLast?_concat, hcc]
    rw [rstrip_slash, he, List.dropWhile_cons, if_neg (by simpa using hc), ← he,
      List.reverse_reverse]

theorem isPre_append (p rest : List Char) : isPre p (p ++ rest) = true :=
  (isPre_iff _ _).mpr (List.prefix_append p rest)

theorem rsplit_colon_split (host port : List Char) (h : ':' ∉ port) :
    rsplit_colon (host ++ ':' :: port) = (host, port) := by
  have hrev : (host ++ ':' :: port).reverse = port.reverse ++ ':' :: host.reverse := by
    simp [List.reverse_append]
  have hall : ∀ c ∈ port.reverse, (decide (c ≠ ':')) = true := by
    intro c hc
    simp only [List.mem_reverse] at hc
    have hcc : ¬ c = ':' := fun hcc => h (hcc ▸ hc)
    simp [hcc]
  unfold rsplit_colon
  rw [hrev, dropWhile_append_all _ hall, takeWhile_append_all _ hall]
  simp [List.dropWhile_cons, List.takeWhile_cons]

theorem digitsVal_facts (port : List Char) (v : Nat) (h : digitsVal port = some v) :
    port ≠ [] ∧ ∀ c ∈ port, c.isDigit = true := by
  unfold digitsVal at h
  split at h
  · exact absurd h (by simp)
  · split at h
    · rename_i h1 h2
      exact ⟨by simpa using h1, fun c hc => (List.all_eq_true.mp h2) c hc⟩
    · exact absurd h (by simp)

theorem no_colon_of_digits (port : List Char) (hd : ∀ c ∈ port, c.isDigit = true) :
    ':' ∉ port := fun hc => absurd (hd ':' hc) (by decide)

theorem getLast_not_slash (port : List Char) (hne : port ≠ [])
    (hd : ∀ c ∈ port, c.isDigit = true) : port.getLast? ≠ some '/' := by
  rw [List.getLast?_eq_getLast_of_ne_nil hne]
  intro h
  have hmem := List.getLast_mem hne
  have hdig := hd _ hmem
  rw [Option.some.injEq] at h
  rw [h] at hdig
  exact absurd hdig (by decide)

theorem getLast_append_colon (pre host port : List Char) (hne : port ≠ []) :
    (pre ++ host ++ ':' :: port).getLast? = port.getLast? := by
  rw [List.getLast?_append_cons]
  show ([':'] ++ port).getLast? = _
  rw [@List.getLast?_append_of_ne_nil _ [':'] port hne]

theorem pyInt_digits (port : List Char) (v : Nat) (h : digitsVal port = some v) :
    pyInt port = some (v : Int) := by
  obtain ⟨hne, hd⟩ := digitsVal_facts port v h
  cases port with
  | nil => exact absurd rfl hne
  | cons c rest =>
    have hc : c.isDigit = true := hd c (List.mem_cons_self _ _)
    have h1 : ¬ c = '+' := by intro he; rw [he] at hc; exact absurd hc (by decide)
    have h2 : ¬ c = '-' := by intro he; rw [he] at hc; exact absurd hc (by decide)
    simp [pyInt, h1, h2, h]

theorem pyInt_neg (port : List Char) (v : Nat) (h : digitsVal port = some v) :
    pyInt ('-' :: port) = some (-(v : Int)) := by
  have he : pyInt ('-' :: port) = (digitsVal port).map (fun n => -(n : Int)) := rfl
  rw [he, h]
  rfl

theorem scheme_split_https (rest : List Char) :
    scheme_split ("https://".data ++ rest) = (rest, "json2+ssl") := by
  unfold scheme_split
  rw [if_pos (isPre_append _ _)]
  have h8 : ("https://".data).length = 8 := rfl
  rw [show ("https://".data ++ rest).drop 8 = rest from h8 ▸ List.drop_left _ _]

theorem scheme_split_http (rest : List Char) :
    scheme_split ("http://".data ++ rest) = (rest, "json2") := by
  unfold scheme_split
  rw [show isPre "https://".data ("http://".data ++ rest) = false from rfl]
  rw [if_neg (by simp), if_pos (isPre_append _ _)]
  have h7 : ("http://".data).length = 7 := rfl
  rw [show ("http://".data ++ rest).drop 7 = rest from h7 ▸ List.drop_left _ _]

theorem scheme_split_bare (u : List Char) (h1 : isPre "https://".data u = false)
    (h2 : isPre "http://".data u = false) : scheme_split u = (u, "json2") := by
  unfold scheme_split
  rw [h1, h2]
  simp

theorem host_port_of_colon (host port : List Char) (protocol : String) (p : Int)
    (hno : ':' ∉ port) (hpy : pyInt port = some p) :
    host_port (host ++ ':' :: port) protocol = some ⟨host, p, protocol⟩ := by
  unfold host_port
  rw [if_pos (by simp : ':' ∈ host ++ ':' :: port), rsplit_colon_split host port hno, hpy]

theorem host_port_no_colon (host : List Char) (protocol : String) (h : ':' ∉ host) :
    host_port host protocol = some ⟨host, 8069, protocol⟩ := by
  unfold host_port
  rw [if_neg h]

/-- C5 counterexample: Python int() accepts a sign, so the address
http://h:-1 parses with port -1, which is not a non-negative integer; the
claim that the port is parsed as a non-negative integer is false on the
code. -/
theorem C5_connect_parse_counterexample :
    connect_parse "http://h:-1" = some ⟨['h'], -1, "json2"⟩ ∧
    ¬ (0 : Int) ≤ -1 := ⟨by decide, by decide⟩

/-- C5 amended: connect strips trailing separators; a secure-scheme prefix
selects the encrypted variant and is stripped, the insecure prefix selects
the plain variant and is stripped, and otherwise the whole string is a bare
host on the plain variant; when the remaining host contains a port separator
the string is split at the last separator and the port is converted with
Python int(), which accepts an optionally signed decimal (so a negative port
string yields a negative port); with no separator the port defaults to
8069. -/
theorem C5_connect_parse_spec :
    (∀ s : String, connect_parse (s ++ "/") = connect_parse s) ∧
    (∀ (host port : List Char) (v : Nat), digitsVal port = some v →
      connect_parse (String.mk ("https://".data ++ host ++ ':' :: port)) =
        some ⟨host, (v : Int), "json2+ssl"⟩) ∧
    (∀ (host port : List Char) (v : Nat), digitsVal port = some v →
      connect_parse (String.mk ("http://".data ++ host ++ ':' :: port)) =
        some ⟨host, (v : Int), "json2"⟩) ∧
    (∀ (host port : List Char) (v : Nat), digitsVal port = some v →
      isPre "https://".data (host ++ ':' :: port) = false →
      isPre "http://".data (host ++ ':' :: port) = false →
      connect_parse (String.mk (host ++ ':' :: port)) = some ⟨host, (v : Int), "json2"⟩) ∧
    (∀ host : List Char, host ≠ [] → ':' ∉ host → host.getLast? ≠ some '/' →
      connect_parse (String.mk ("https://".data ++ host)) =
        some ⟨host, 8069, "json2+ssl"⟩) ∧
    (∀ host : List Char, host ≠ [] → ':' ∉ host → host.getLast? ≠ some '/' →
      connect_parse (String.mk ("http://".data ++ host)) = some ⟨host, 8069, "json2"⟩) ∧
    (∀ host : List Char, ':' ∉ host → host.getLast? ≠ some '/' →
      isPre "https://".data host = false → isPre "http://".data host = false →
      connect_parse (String.mk host) = some ⟨host, 8069, "json2"⟩) ∧
    (∀ (host port : List Char) (v : Nat), digitsVal port = some v →
      connect_parse (String.mk ("http://".data ++ host ++ ':' :: '-' :: port)) =
        some ⟨host, -(v : Int), "json2"⟩) := by
  refine ⟨?_, ?_, ?_, ?_, ?_, ?_, ?_, ?_⟩
  · intro s
    show host_port (scheme_split (rstrip_slash (s ++ "/").data)).1
      (scheme_split (rstrip_slash (s ++ "/").data)).2 = connect_parse s
    have hd : (s ++ "/").data = s.data ++ ['/'] := rfl
    rw [hd, rstrip_slash_append]
    rfl
  · intro host port v hv
    obtain ⟨hne, hd⟩ := digitsVal_facts port v hv
    show host_port (scheme_split (rstrip_slash ("https://".data ++ host ++ ':' :: port))).1
      (scheme_split (rstrip_slash ("https://".data ++ host ++ ':' :: port))).2 = _
    rw [rstrip_slash_noop ("https://".data ++ host ++ ':' :: port)
        (by rw [getLast_append_colon _ _ _ hne]; exact getLast_not_slash port hne hd),
      List.append_assoc, scheme_split_https]
    exact host_port_of_colon host port _ _ (no_colon_of_digits port hd) (pyInt_digits port v hv)
  · intro host port v hv
    obtain ⟨hne, hd⟩ := digitsVal_facts port v hv
    show host_port (scheme_split (rstrip_slash ("http://".data ++ host ++ ':' :: port))).1
      (scheme_split (rstrip_slash ("http://".data ++ host ++ ':' :: port))).2 = _
    rw [rstrip_slash_noop ("http://".data ++ host ++ ':' :: port)
        (by rw [getLast_append_colon _ _ _ hne]; exact getLast_not_slash port hne hd),
      List.append_assoc, scheme_split_http]
    exact host_port_of_colon host port _ _ (no_colon_of_digits port hd) (pyInt_digits port v hv)
  · intro host port v hv h1 h2
    obtain ⟨hne, hd⟩ := digitsVal_facts port v hv
    show host_port (scheme_split (rstrip_slash (host ++ ':' :: port))).1
      (scheme_split (rstrip_slash (host ++ ':' :: port))).2 = _
    rw [rstrip_slash_noop (host ++ ':' :: port)
        (by
          rw [List.getLast?_append_cons]
          show ([':'] ++ port).getLast? ≠ _
          rw [@List.getLast?_append_of_ne_nil _ [':'] port hne]
          exact getLast_not_slash port hne hd),
      scheme_split_bare _ h1 h2]
    exact host_port_of_colon host port _ _ (no_colon_of_digits port hd) (pyInt_digits port v hv)
  · intro host hne hno hns
    show host_port (scheme_split (rstrip_slash ("https://".data ++ host))).1
      (scheme_split (rstrip_slash ("https://".data ++ host))).2 = _
    rw [rstrip_slash_noop ("https://".data ++ host)
        (by rw [@List.getLast?_append_of_ne_nil _ ("https://".data) host hne]; exact hns),
      scheme_split_https]
    exact host_port_no_colon host _ hno
  · intro host hne hno hns
    show host_port (scheme_split (rstrip_slash ("http://".data ++ host))).1
      (scheme_split (rstrip_slash ("http://".data ++ host))).2 = _
    rw [rstrip_slash_noop ("http://".data ++ host)
        (by rw [@List.getLast?_append_of_ne_nil _ ("http://".data) host hne]; exact hns),
      scheme_split_http]
    exact host_port_no_colon host _ hno
  · intro host hno hns h1 h2
    show host_port (scheme_split (rstrip_slash host)).1
      (scheme_split (rstrip_slash host)).2 = _
    rw [rstrip_slash_noop host hns, scheme_split_bare _ h1 h2]
    exact host_port_no_colon host _ hno
  · intro host port v hv
    obtain ⟨hne, hd⟩ := digitsVal_facts port v hv
    have hno : ':' ∉ ('-' :: port) := by
      intro hc
      rcases List.mem_cons.mp hc with h | h
      · exact absurd h (by decide)
      · exact no_colon_of_digits port hd h
    show host_port (scheme_split (rstrip_slash ("http://".data ++ host ++ ':' :: '-' :: port))).1
      (scheme_split (rstrip_slash ("http://".data ++ host ++ ':' :: '-' :: port))).2 = _
    rw [rstrip_slash_noop ("http://".data ++ host ++ ':' :: '-' :: port)
        (by
          rw [List.getLast?_append_cons]
          show ([':', '-'] ++ port).getLast? ≠ _
          rw [@List.getLast?_append_of_ne_nil _ [':', '-'] port hne]
          exact getLast_not_slash port hne hd),
      List.append_assoc, scheme_split_http]
    exact host_port_of_colon host ('-' :: port) _ _ hno (pyInt_neg port v hv)

/-- Witness for C5 amended at concrete addresses: a plain scheme with port,
a trailing separator, a bare host with port, and a signed port. -/
theorem C5_connect_parse_spec_witness :
    connect_parse (String.mk ("http://".data ++ "localhost".data ++ ':' :: "8069".data)) =
      some ⟨"localhost".data, 8069, "json2"⟩ ∧
    connect_parse ("http://localhost:8069" ++ "/") = connect_parse "http://localhost:8069" ∧
    connect_parse (String.mk ("myhost".data ++ ':' :: "1234".data)) =
      some ⟨"myhost".data, 1234, "json2"⟩ ∧
    connect_parse (String.mk ("http://".data ++ "h".data ++ ':' :: '-' :: "1".data)) =
      some ⟨"h".data, -1, "json2"⟩ := by
  refine ⟨?_, C5_connect_parse_spec.1 "http://localhost:8069", ?_, ?_⟩
  · exact C5_connect_parse_spec.2.2.1 "localhost".data "8069".data 8069 (by decide)
  · exact C5_connect_parse_spec.2.2.2.1 "myhost".data "1234".data 1234
      (by decide) (by decide) (by decide)
  · exact C5_connect_parse_spec.2.2.2.2.2.2.2 "h".data "1".data 1 (by decide)

end OdooMCP
